import Mathlib

/-!
Shallow embedding of `src/main.py` (eBay Listing Checker).

The program reads two CSV files (an order export and a listing export),
normalizes item numbers and dates, builds the set of items sold in the last
60 days, and lists the items that are still unsold.  We model the pandas
frames as lists of association-list rows, timestamps as integers (seconds),
`pd.to_datetime(..., errors='coerce')` as an abstract element-wise parser
`td : String → Option Int` (a failing parse is `none`, pandas `NaT`), and
Python `float(...)` together with the format `'{:.0f}'` as exact decimal
parsing (signed mantissa and decimal exponent) followed by
round-half-to-even — the identifiers the program repairs are decimal
integers with a spurious fractional part, for which the binary float takes
exactly the decimal value.
-/

namespace EbayChecker

/-- A parsed CSV row: cells keyed by column name.  A key that is absent
models a missing cell. -/
abbrev Row := List (String × String)

/-- A parsed CSV table: the header columns and the data rows
(`pd.read_csv` result). -/
structure Frame where
  columns : List String
  rows : List Row
deriving Repr, DecidableEq

/-- Cell access `row[col]`. -/
def cell (r : Row) (c : String) : Option String := r.lookup c

/-- `read_csv_filtered` (src/main.py lines 6–16).  The input `file` is the
outcome of `pd.read_csv`: `Except.error e` when reading raises (caught by
the `try`), `Except.ok df` otherwise.  The function returns the frame (or
`none`) together with the `st.error` message emitted on the failing paths. -/
def read_csv_filtered (file : Except String Frame) (expected_columns : List String) :
    Option Frame × Option String :=
  match file with
  | Except.error e => (none, some ("Error reading the CSV file: " ++ e))
  | Except.ok df =>
    let missing_columns := expected_columns.filter (fun col => !(df.columns.contains col))
    if missing_columns.isEmpty then (some df, none)
    else (none, some ("Missing expected columns: " ++ String.intercalate ", " missing_columns))

/-! ### Item-number normalization (`format_item_number`, lines 19–20) -/

/-- Whether every character of the list is a decimal digit. -/
def allDigits (l : List Char) : Bool := l.all (fun c => c.isDigit)

/-- Numeric value of a list of decimal digit characters. -/
def digitsVal (l : List Char) : Nat :=
  l.foldl (fun a c => a * 10 + (c.toNat - 48)) 0

/-- Python `float(s)` on the decimal fragment of its grammar:
optional sign, then digits with an optional single decimal point
(at least one digit).  The exact decimal value is returned as a signed
mantissa `m` and a decimal exponent `e` (the value is `m / 10 ^ e`);
`none` when the string is not a number (Python raises `ValueError`). -/
def parseFloat (s : String) : Option (Int × Nat) :=
  let p : Int × List Char :=
    match s.data with
    | '-' :: t => (-1, t)
    | '+' :: t => (1, t)
    | t => (1, t)
  let ip := p.2.takeWhile (fun c => c ≠ '.')
  let rest := p.2.dropWhile (fun c => c ≠ '.')
  let fp : List Char :=
    match rest with
    | [] => []
    | _ :: t => t
  if allDigits ip && allDigits fp && !(ip.isEmpty && fp.isEmpty) then
    some (p.1 * ((digitsVal ip * 10 ^ fp.length + digitsVal fp : Nat) : Int), fp.length)
  else none

/-- Round `m / 10 ^ e` to the nearest integer, ties to even — the rounding
of Python's `'{:.0f}'` format. -/
def roundHalfEven (m : Int) (e : Nat) : Int :=
  let d : Int := 10 ^ e
  let f := Int.fdiv m d
  let rem := m - f * d
  if 2 * rem < d then f
  else if d < 2 * rem then f + 1
  else if f % 2 = 0 then f else f + 1

/-- Decimal digit characters of `n`, most significant first, with
structural fuel so that the definition reduces. -/
def natDigitsAux : Nat → Nat → List Char
  | 0, _ => []
  | fuel + 1, n =>
    if n < 10 then [Char.ofNat (48 + n)]
    else natDigitsAux fuel (n / 10) ++ [Char.ofNat (48 + n % 10)]

/-- Decimal digit characters of `n`, most significant first. -/
def natDigits (n : Nat) : List Char := natDigitsAux (n + 1) n

/-- Integer rendered as a decimal string (the output of `'{:.0f}'` after
rounding). -/
def intStr (n : Int) : String :=
  if n < 0 then ⟨'-' :: natDigits n.natAbs⟩ else ⟨natDigits n.natAbs⟩

/-- `format_item_number` (lines 19–20): the raw cell value is `none` when
absent; Python truthiness makes both `None` and `''` fall to the `else`
branch.  A non-number raises `ValueError` in Python — modelled as
`Except.error`. -/
def format_item_number (item_number : Option String) : Except String String :=
  match item_number with
  | none => Except.ok ""
  | some s =>
    if s = "" then Except.ok ""
    else
      match parseFloat s with
      | some q => Except.ok (intStr (roundHalfEven q.1 q.2))
      | none => Except.error ("could not convert string to float: " ++ s)

/-! ### `process_ebay_data` (lines 23–58) -/

/-- An order record after normalization: formatted item number and the
`pd.to_datetime(..., errors='coerce')` result (`none` = `NaT`). -/
structure OrderRec where
  item : String
  saleDate : Option Int
deriving Repr, DecidableEq

/-- A listing record after normalization.  The `Available quantity` column
is numeric; a cell that is missing or non-numeric is `none` (pandas `NaN`). -/
structure ListingRec where
  item : String
  startDate : Option Int
  qty : Option (Int × Nat)
deriving Repr, DecidableEq

/-- `mapM` over `Except` written structurally, short-circuiting at the first
error — the first row whose item number Python fails to convert raises. -/
def mapExcept (f : α → Except String β) : List α → Except String (List β)
  | [] => Except.ok []
  | a :: l =>
    match f a with
    | Except.error e => Except.error e
    | Except.ok b =>
      match mapExcept f l with
      | Except.error e => Except.error e
      | Except.ok bs => Except.ok (b :: bs)

/-- One order row through lines 30–31: item-number normalization (which can
raise) and sale-date coercion. -/
def orderRow (td : String → Option Int) (r : Row) : Except String OrderRec :=
  match format_item_number (cell r "Item number") with
  | Except.error e => Except.error e
  | Except.ok i => Except.ok ⟨i, (cell r "Sale date").bind td⟩

/-- Lines 30–32: normalize all order rows, then `dropna(subset=['Sale date'])`. -/
def normalizeOrders (td : String → Option Int) (rows : List Row) :
    Except String (List OrderRec) :=
  match mapExcept (orderRow td) rows with
  | Except.error e => Except.error e
  | Except.ok recs => Except.ok (recs.filter (fun r => r.saleDate.isSome))

/-- One listing row through lines 40–41 (no `dropna` on the listing side). -/
def listingRow (td : String → Option Int) (r : Row) : Except String ListingRec :=
  match format_item_number (cell r "Item number") with
  | Except.error e => Except.error e
  | Except.ok i =>
    Except.ok ⟨i, (cell r "Start date").bind td, (cell r "Available quantity").bind parseFloat⟩

/-- Lines 40–41: normalize all listing rows. -/
def normalizeListings (td : String → Option Int) (rows : List Row) :
    Except String (List ListingRec) :=
  mapExcept (listingRow td) rows

/-- Pandas `Sale date > cutoff`: `NaT` compares `False`. -/
def optGT : Option Int → Int → Bool
  | none, _ => false
  | some d, c => c < d

/-- Pandas/Python `start_date < cutoff`: `NaT` compares `False`. -/
def optLT : Option Int → Int → Bool
  | none, _ => false
  | some d, c => d < c

/-- Python `available_quantity > 0`: `NaN` compares `False`.  The quantity
`m / 10 ^ e` is positive exactly when its mantissa is. -/
def optPos : Option (Int × Nat) → Bool
  | none => false
  | some q => 0 < q.1

/-- `timedelta(days=60)` in seconds. -/
def sixtyDays : Int := 60 * 86400

/-- Lines 44–46: the sold items, one representative per distinct value of
`set(recent_sales['Item number'])` (Python set iteration order is
unspecified; `dedup` fixes one order with each value exactly once). -/
def soldItems (cutoff : Int) (orders : List OrderRec) : List String :=
  ((orders.filter (fun r => optGT r.saleDate cutoff)).map OrderRec.item).dedup

/-- The loop condition of line 53. -/
def unsoldKeep (cutoff : Int) (sold : List String) (r : ListingRec) : Bool :=
  !(sold.contains r.item) && optPos r.qty && optLT r.startDate cutoff

/-- Lines 48–54: the unsold item numbers appended in file order. -/
def unsoldItems (cutoff : Int) (sold : List String) (listings : List ListingRec) :
    List String :=
  (listings.filter (unsoldKeep cutoff sold)).map ListingRec.item

/-- `process_ebay_data` (lines 23–58).  Result: `Except.error e` when an
uncaught Python exception terminates the run (item-number normalization is
outside the only `try`), `Except.ok (none, none)` for the caught/reported
failures (`return None, None`), `Except.ok (some sold, some unsold)` on
success.  `now` is `datetime.now()`. -/
def process_ebay_data (td : String → Option Int) (now : Int)
    (listing_file order_file : Except String Frame) :
    Except String (Option (List String) × Option (List String)) :=
  let expected_order_columns := ["Item number", "Sale date"]
  match (read_csv_filtered order_file expected_order_columns).1 with
  | none => Except.ok (none, none)
  | some order_df =>
    match normalizeOrders td order_df.rows with
    | Except.error e => Except.error e
    | Except.ok orders =>
      let expected_listing_columns := ["Item number", "Start date", "Available quantity"]
      match (read_csv_filtered listing_file expected_listing_columns).1 with
      | none => Except.ok (none, none)
      | some listing_df =>
        match normalizeListings td listing_df.rows with
        | Except.error e => Except.error e
        | Except.ok listings =>
          let cutoff := now - sixtyDays
          let sold := soldItems cutoff orders
          Except.ok (some sold, some (unsoldItems cutoff sold listings))

/-- The session-scoped results (`st.session_state.sold_df` / `unsold_df`,
lines 74–77). -/
structure SessionState where
  sold_df : Option (List String)
  unsold_df : Option (List String)
deriving Repr, DecidableEq

/-- The button handler, lines 84–87: on an uncaught exception the state is
untouched; otherwise the state is replaced only when both results are
non-`None`. -/
def updateSession (st : SessionState)
    (result : Except String (Option (List String) × Option (List String))) :
    SessionState :=
  match result with
  | Except.error _ => st
  | Except.ok (sold_df, unsold_df) =>
    match sold_df, unsold_df with
    | some s, some u => ⟨some s, some u⟩
    | _, _ => st

/-! ### Concrete instances used to exercise the model -/

/-- A concrete element-wise date parser standing in for
`pd.to_datetime(..., errors='coerce')` in concrete runs: a string of digits
is that many seconds since the epoch, anything else is `NaT`. -/
def tdNum (s : String) : Option Int :=
  if allDigits s.data && !s.data.isEmpty then some ((digitsVal s.data : Nat) : Int) else none

/-- Order file of the sold-boundary run: one sale of item `100`,
timestamped 815999 s — exactly 60 days and 1 second before `now`
when `now = 6000000` s (the cutoff is `6000000 - 60⬝86400 = 816000`). -/
def boundaryOrderFrame : Frame :=
  ⟨["Item number", "Sale date"], [[("Item number", "100"), ("Sale date", "815999")]]⟩

/-- Listing file of the sold-boundary run: no rows. -/
def boundaryListingFrame : Frame :=
  ⟨["Item number", "Start date", "Available quantity"], []⟩

/-- Listing file of the disjointness run: items `200`, `100`, `200`,
all with quantity 1 and start date 0. -/
def disjListingFrame : Frame :=
  ⟨["Item number", "Start date", "Available quantity"],
   [[("Item number", "200"), ("Start date", "0"), ("Available quantity", "1")],
    [("Item number", "100"), ("Start date", "0"), ("Available quantity", "1")],
    [("Item number", "200"), ("Start date", "0"), ("Available quantity", "1")]]⟩

/-- Order file of the disjointness run: item `100` sold at 816001 s,
strictly inside the 60-day window for `now = 6000000` s. -/
def disjOrderFrame : Frame :=
  ⟨["Item number", "Sale date"], [[("Item number", "100"), ("Sale date", "816001")]]⟩

/-- An order row whose item number is fine but whose sale date `"x"` does
not parse. -/
def badDateRow : Row := [("Item number", "7"), ("Sale date", "x")]

/-- A listing row whose item number is fine but whose start date `"x"` does
not parse. -/
def badStartRow : Row :=
  [("Item number", "7"), ("Start date", "x"), ("Available quantity", "1")]

/-- An order row whose non-empty item number `"abc"` is not a number:
Python's `float` raises on it. -/
def badItemRow : Row := [("Item number", "abc"), ("Sale date", "816001")]

end EbayChecker

namespace EbayChecker

/-! ### Supporting lemmas -/

theorem contains_eq_true_iff (l : List String) (x : String) :
    l.contains x = true ↔ x ∈ l := by
  simp [List.contains, List.elem_iff]

theorem mem_unsoldItems {c : Int} {s : List String} {l : List ListingRec} {x : String} :
    x ∈ unsoldItems c s l ↔ ∃ r ∈ l, unsoldKeep c s r = true ∧ r.item = x := by
  constructor
  · intro h
    rcases List.mem_map.1 h with ⟨r, hr, hx⟩
    rcases List.mem_filter.1 hr with ⟨hrl, hk⟩
    exact ⟨r, hrl, hk, hx⟩
  · rintro ⟨r, hrl, hk, hx⟩
    exact List.mem_map.2 ⟨r, List.mem_filter.2 ⟨hrl, hk⟩, hx⟩

theorem not_mem_sold_of_mem_unsoldItems {c : Int} {s : List String}
    {l : List ListingRec} {x : String} (h : x ∈ unsoldItems c s l) : x ∉ s := by
  rcases mem_unsoldItems.1 h with ⟨r, _, hk, hx⟩
  intro hxs
  simp [unsoldKeep] at hk
  exact hk.1.1 (by rw [hx]; exact hxs)

/-- Every outcome of `process_ebay_data` is a caught failure, an uncaught
exception, or a success whose two components are the classifier's sold and
unsold lists for the same run. -/
theorem process_ebay_data_cases (td : String → Option Int) (now : Int)
    (listing_file order_file : Except String Frame) :
    process_ebay_data td now listing_file order_file = Except.ok (none, none)
    ∨ (∃ e, process_ebay_data td now listing_file order_file = Except.error e)
    ∨ (∃ orders listings,
        process_ebay_data td now listing_file order_file
          = Except.ok (some (soldItems (now - sixtyDays) orders),
              some (unsoldItems (now - sixtyDays) (soldItems (now - sixtyDays) orders) listings))) := by
  unfold process_ebay_data
  rcases h1 : (read_csv_filtered order_file ["Item number", "Sale date"]).1 with _ | order_df
  · exact Or.inl (by simp [h1])
  · rcases hno : normalizeOrders td order_df.rows with e | orders
    · exact Or.inr (Or.inl ⟨e, by simp [h1, hno]⟩)
    · rcases h2 : (read_csv_filtered listing_file ["Item number", "Start date", "Available quantity"]).1 with _ | listing_df
      · exact Or.inl (by simp [h1, hno, h2])
      · rcases hnl : normalizeListings td listing_df.rows with e | listings
        · exact Or.inr (Or.inl ⟨e, by simp [h1, hno, h2, hnl]⟩)
        · exact Or.inr (Or.inr ⟨orders, listings, by simp [h1, hno, h2, hnl]⟩)

/-- Claim C1: for every pair of input files on which the run succeeds, the
Sold set and the Unsold sequence are disjoint — no item identifier emitted
to the Unsold output is a member of the Sold set of the same run. -/
theorem sold_unsold_disjoint (td : String → Option Int) (now : Int)
    (listing_file order_file : Except String Frame) (sold unsold : List String)
    (h : process_ebay_data td now listing_file order_file
          = Except.ok (some sold, some unsold)) :
    ∀ x ∈ unsold, x ∉ sold := by
  rcases process_ebay_data_cases td now listing_file order_file with h0 | ⟨e, he⟩ | ⟨orders, listings, hs⟩
  · rw [h0] at h; simp at h
  · rw [he] at h; simp at h
  · rw [hs] at h
    simp only [Except.ok.injEq, Prod.mk.injEq, Option.some.injEq] at h
    rcases h with ⟨hsold, hunsold⟩
    subst hsold; subst hunsold
    intro x hx
    exact not_mem_sold_of_mem_unsoldItems hx

/-- Witness for C1: the disjointness run succeeds with Sold = `[100]` and
Unsold = `[200, 200]`, and the emitted unsold identifier `200` is not in
the Sold set. -/
theorem sold_unsold_disjoint_witness :
    "200" ∉ (["100"] : List String) :=
  sold_unsold_disjoint tdNum 6000000
    (Except.ok disjListingFrame) (Except.ok disjOrderFrame) ["100"] ["200", "200"] rfl
    "200" (by simp)

/-- Claim C2 counterexample: with `now = 6000000` s the cutoff is
`816000` s, and the order row of `boundaryOrderFrame` sells item `100` at
`815999` s — exactly 60 days and 1 second before now.  The run excludes it:
the Sold result is empty, where the claim asserts such a row is included. -/
theorem sold_boundary_counterexample :
    process_ebay_data tdNum 6000000
        (Except.ok boundaryListingFrame) (Except.ok boundaryOrderFrame)
      = Except.ok (some [], some [])
    ∧ "100" ∉ ([] : List String) :=
  ⟨rfl, by simp⟩

/-- Claim C2 (amended): with cutoff = now − 60 days, membership in the Sold
set requires a sale date strictly greater than the cutoff — a sale dated one
second after the cutoff (59 days, 23 hours, 59 minutes and 59 seconds
before now) is included, one dated exactly 60 days before now is excluded —
and membership in the Unsold sequence requires a start date strictly less
than the cutoff, so a listing started exactly at the cutoff instant is
classified as not old enough and excluded. -/
theorem sold_boundary_amended (now : Int) (i : String) (sold : List String)
    (q : Option (Int × Nat)) (orders : List OrderRec) (listings : List ListingRec)
    (x : String) :
    (x ∈ soldItems (now - sixtyDays) orders →
      ∃ r ∈ orders, r.item = x ∧ ∃ d, r.saleDate = some d ∧ now - sixtyDays < d)
    ∧ soldItems (now - sixtyDays) [⟨i, some (now - sixtyDays + 1)⟩] = [i]
    ∧ soldItems (now - sixtyDays) [⟨i, some (now - sixtyDays)⟩] = []
    ∧ (x ∈ unsoldItems (now - sixtyDays) sold listings →
      ∃ r ∈ listings, r.item = x ∧ ∃ d, r.startDate = some d ∧ d < now - sixtyDays)
    ∧ unsoldKeep (now - sixtyDays) sold ⟨i, some (now - sixtyDays), q⟩ = false := by
  refine ⟨?_, ?_, ?_, ?_, ?_⟩
  · intro hx
    rcases List.mem_map.1 (List.mem_dedup.1 hx) with ⟨r, hr, hi⟩
    rcases List.mem_filter.1 hr with ⟨hrl, hgt⟩
    rcases hd : r.saleDate with _ | d
    · rw [hd] at hgt; simp [optGT] at hgt
    · rw [hd] at hgt; simp only [optGT, decide_eq_true_eq] at hgt
      exact ⟨r, hrl, hi, d, hd, hgt⟩
  · simp [soldItems, optGT]
  · simp [soldItems, optGT]
  · intro hx
    rcases mem_unsoldItems.1 hx with ⟨r, hrl, hk, hi⟩
    simp only [unsoldKeep, Bool.and_eq_true] at hk
    rcases hd : r.startDate with _ | d
    · rw [hd] at hk; simp [optLT] at hk
    · rw [hd] at hk
      refine ⟨r, hrl, hi, d, hd, ?_⟩
      have := hk.2
      simpa [optLT] using this
  · simp [unsoldKeep, optLT]

/-- Witness for the amended C2: at `now = 6000000` s (cutoff `816000` s) a
sale at `816001` s is sold, a sale at exactly the cutoff is not, and a
listing started exactly at the cutoff is rejected by the unsold filter. -/
theorem sold_boundary_amended_witness :
    (∃ r ∈ [(⟨"100", some 816001⟩ : OrderRec)],
      r.item = "100" ∧ ∃ d, r.saleDate = some d ∧ 6000000 - sixtyDays < d)
    ∧ soldItems (6000000 - sixtyDays) [⟨"100", some (6000000 - sixtyDays)⟩] = []
    ∧ unsoldKeep (6000000 - sixtyDays) [] ⟨"100", some (6000000 - sixtyDays), some (1, 0)⟩ = false :=
  ⟨(sold_boundary_amended 6000000 "100" [] (some (1, 0)) [⟨"100", some 816001⟩] [] "100").1
      (by decide),
   (sold_boundary_amended 6000000 "100" [] (some (1, 0)) [] [] "100").2.2.1,
   (sold_boundary_amended 6000000 "100" [] (some (1, 0)) [] [] "100").2.2.2.2⟩

theorem charOfNat_digit_ne_dot (d : Nat) (h : d < 10) : Char.ofNat (48 + d) ≠ '.' := by
  interval_cases d <;> decide

theorem natDigitsAux_ne_dot (fuel : Nat) :
    ∀ (n : Nat), ∀ c ∈ natDigitsAux fuel n, c ≠ '.' := by
  induction fuel with
  | zero => intro n c hc; simp [natDigitsAux] at hc
  | succ fuel ih =>
    intro n c hc
    by_cases h : n < 10
    · simp [natDigitsAux, h] at hc
      subst hc
      exact charOfNat_digit_ne_dot n h
    · simp [natDigitsAux, h] at hc
      rcases hc with hc | hc
      · exact ih (n / 10) c hc
      · subst hc
        exact charOfNat_digit_ne_dot (n % 10) (Nat.mod_lt _ (by norm_num))

theorem intStr_no_dot (n : Int) : '.' ∉ (intStr n).data := by
  intro hc
  unfold intStr at hc
  by_cases h : n < 0
  · rw [if_pos h] at hc
    rcases List.mem_cons.1 hc with hc | hc
    · exact absurd hc (by decide)
    · exact natDigitsAux_ne_dot _ _ '.' hc rfl
  · rw [if_neg h] at hc
    exact natDigitsAux_ne_dot _ _ '.' hc rfl

theorem parseFloat_empty : parseFloat "" = none := rfl

/-- Claim C3: item-number normalization maps the raw value
`"123456789.0"` to `"123456789"`, maps an empty or absent raw value to
`""`, and every non-empty value that parses as a (decimal) floating-point
number is reformatted as an integer string containing no decimal point. -/
theorem format_item_number_spec :
    format_item_number (some "123456789.0") = Except.ok "123456789"
    ∧ format_item_number (some "") = Except.ok ""
    ∧ format_item_number none = Except.ok ""
    ∧ ∀ (s : String) (m : Int) (e : Nat), parseFloat s = some (m, e) →
        format_item_number (some s) = Except.ok (intStr (roundHalfEven m e))
        ∧ '.' ∉ (intStr (roundHalfEven m e)).data := by
  refine ⟨rfl, rfl, rfl, ?_⟩
  intro s m e hp
  have hs : ¬ (s = "") := by
    intro h
    rw [h, parseFloat_empty] at hp
    exact Option.noConfusion hp
  refine ⟨?_, intStr_no_dot _⟩
  have hstep : format_item_number (some s)
      = if s = "" then Except.ok ""
        else
          match parseFloat s with
          | some q => Except.ok (intStr (roundHalfEven q.1 q.2))
          | none => Except.error ("could not convert string to float: " ++ s) := rfl
  rw [hstep, if_neg hs, hp]

/-- Witness for C3: the value `"55.5"` parses as the exact decimal
`555 / 10ⁱ` with `i = 1`; normalization succeeds and its output carries no
decimal point (here `roundHalfEven` rounds the tie 55.5 to the even 56). -/
theorem format_item_number_spec_witness :
    format_item_number (some "55.5") = Except.ok (intStr (roundHalfEven 555 1))
    ∧ '.' ∉ (intStr (roundHalfEven 555 1)).data :=
  format_item_number_spec.2.2.2 "55.5" 555 1 rfl

/-- Claim C4: when a required column is absent — here `Sale date` missing
from the order file — the loader rejects the file with the error message
naming the missing column(s), and the processing step aborts returning no
output sets (no partial results). -/
theorem missing_column_aborts (td : String → Option Int) (now : Int)
    (listing_file : Except String Frame) (f : Frame)
    (h : f.columns.contains "Sale date" = false) :
    (∃ missing, "Sale date" ∈ missing ∧
      read_csv_filtered (Except.ok f) ["Item number", "Sale date"]
        = (none, some ("Missing expected columns: " ++ String.intercalate ", " missing)))
    ∧ process_ebay_data td now listing_file (Except.ok f) = Except.ok (none, none) := by
  have hnm : "Sale date" ∉ f.columns := by
    intro hm
    rw [(contains_eq_true_iff f.columns "Sale date").2 hm] at h
    exact Bool.noConfusion h
  have hmem : "Sale date"
      ∈ ["Item number", "Sale date"].filter (fun col => !(f.columns.contains col)) :=
    List.mem_filter.2 ⟨by simp, by simp [hnm]⟩
  have hemp : (["Item number", "Sale date"].filter
      (fun col => !(f.columns.contains col))).isEmpty = false :=
    List.isEmpty_eq_false.2 (List.ne_nil_of_mem hmem)
  have hread : read_csv_filtered (Except.ok f) ["Item number", "Sale date"]
      = (none, some ("Missing expected columns: " ++ String.intercalate ", "
          (["Item number", "Sale date"].filter (fun col => !(f.columns.contains col))))) := by
    simp only [read_csv_filtered, hemp]
    simp
  refine ⟨⟨_, hmem, hread⟩, ?_⟩
  unfold process_ebay_data
  simp [hread]

/-- Witness for C4: a frame whose only column is `Item number` lacks
`Sale date`; the loader names it and the run yields no outputs. -/
theorem missing_column_aborts_witness :
    (∃ missing, "Sale date" ∈ missing ∧
      read_csv_filtered (Except.ok (⟨["Item number"], []⟩ : Frame)) ["Item number", "Sale date"]
        = (none, some ("Missing expected columns: " ++ String.intercalate ", " missing)))
    ∧ process_ebay_data tdNum 6000000 (Except.ok disjListingFrame)
        (Except.ok (⟨["Item number"], []⟩ : Frame)) = Except.ok (none, none) :=
  missing_column_aborts tdNum 6000000 (Except.ok disjListingFrame)
    ⟨["Item number"], []⟩ (by decide)

/-- A listing row the loop condition rejects contributes nothing to the
Unsold output, wherever it sits in the file. -/
theorem unsoldItems_middle (c : Int) (s : List String) (pre post : List ListingRec)
    (r : ListingRec) (h : unsoldKeep c s r = false) :
    unsoldItems c s (pre ++ r :: post) = unsoldItems c s (pre ++ post) := by
  simp [unsoldItems, List.filter_append, List.filter_cons, h]

/-- Claim C5: a listing row with available quantity 0 (zero mantissa, any
decimal exponent) never appears in the Unsold sequence — the loop condition
rejects it for every item identifier, start date and sold-set contents, and
removing such a row leaves the Unsold output unchanged. -/
theorem zero_quantity_never_unsold (c : Int) (s : List String) (i : String)
    (sd : Option Int) (e : Nat) (pre post : List ListingRec) :
    unsoldKeep c s ⟨i, sd, some (0, e)⟩ = false
    ∧ unsoldItems c s (pre ++ ⟨i, sd, some (0, e)⟩ :: post)
        = unsoldItems c s (pre ++ post) := by
  have hk : unsoldKeep c s ⟨i, sd, some (0, e)⟩ = false := by
    simp [unsoldKeep, optPos]
  exact ⟨hk, unsoldItems_middle c s pre post _ hk⟩

theorem mapExcept_append (f : α → Except String β) (l1 l2 : List α) :
    mapExcept f (l1 ++ l2)
      = match mapExcept f l1 with
        | Except.error e => Except.error e
        | Except.ok b1 =>
          match mapExcept f l2 with
          | Except.error e => Except.error e
          | Except.ok b2 => Except.ok (b1 ++ b2) := by
  induction l1 with
  | nil =>
    simp only [List.nil_append, mapExcept]
    cases mapExcept f l2 <;> rfl
  | cons a t ih =>
    have hstep : mapExcept f ((a :: t) ++ l2)
        = match f a with
          | Except.error e => Except.error e
          | Except.ok b =>
            match mapExcept f (t ++ l2) with
            | Except.error e => Except.error e
            | Except.ok bs => Except.ok (b :: bs) := rfl
    have hstep2 : mapExcept f (a :: t)
        = match f a with
          | Except.error e => Except.error e
          | Except.ok b =>
            match mapExcept f t with
            | Except.error e => Except.error e
            | Except.ok bs => Except.ok (b :: bs) := rfl
    rw [hstep, hstep2, ih]
    cases f a with
    | error e => rfl
    | ok b => cases mapExcept f t <;> cases mapExcept f l2 <;> rfl

/-- Claim C6: an order row whose sale date fails to parse (`NaT`) is
silently dropped by the `dropna` step: provided its item number normalizes,
the normalized order dataset equals the one computed without the row, so
the row contributes nothing to the Sold set and surfaces no error. -/
theorem bad_sale_date_row_dropped (td : String → Option Int) (pre post : List Row)
    (r : Row) (i : String)
    (hfmt : format_item_number (cell r "Item number") = Except.ok i)
    (hdate : (cell r "Sale date").bind td = none) :
    normalizeOrders td (pre ++ r :: post) = normalizeOrders td (pre ++ post) := by
  have hr : orderRow td r = Except.ok ⟨i, none⟩ := by
    unfold orderRow
    rw [hfmt, hdate]
  unfold normalizeOrders
  rw [mapExcept_append, mapExcept_append]
  cases mapExcept (orderRow td) pre with
  | error e => rfl
  | ok b1 =>
    have hstep : mapExcept (orderRow td) (r :: post)
        = match mapExcept (orderRow td) post with
          | Except.error e => Except.error e
          | Except.ok bs => Except.ok ((⟨i, none⟩ : OrderRec) :: bs) := by
      cases hpost : mapExcept (orderRow td) post with
      | error e => simp only [mapExcept, hr, hpost]
      | ok b2 => simp only [mapExcept, hr, hpost]
    rw [hstep]
    cases mapExcept (orderRow td) post with
    | error e => rfl
    | ok b2 => simp [List.filter_append, List.filter_cons]

/-- Witness for C6: the row with sale date `"x"` is dropped — normalizing
an order file holding only that row gives the same (empty) dataset as
normalizing an empty file. -/
theorem bad_sale_date_row_dropped_witness :
    normalizeOrders tdNum [badDateRow] = normalizeOrders tdNum [] :=
  bad_sale_date_row_dropped tdNum [] [] badDateRow "7" rfl rfl

/-- Claim C7: the run is atomic for the session-scoped results: an uncaught
exception or a caught failure leaves the stored results unchanged, a
success replaces both results wholesale independently of the previous
state, and every outcome of the processing step is one of those three
shapes (never a partial result). -/
theorem session_results_atomic :
    (∀ (st : SessionState) (e : String), updateSession st (Except.error e) = st)
    ∧ (∀ (st : SessionState), updateSession st (Except.ok (none, none)) = st)
    ∧ (∀ (st : SessionState) (s u : List String),
        updateSession st (Except.ok (some s, some u)) = ⟨some s, some u⟩)
    ∧ (∀ (td : String → Option Int) (now : Int) (lf of : Except String Frame),
        process_ebay_data td now lf of = Except.ok (none, none)
        ∨ (∃ e, process_ebay_data td now lf of = Except.error e)
        ∨ (∃ s u, process_ebay_data td now lf of = Except.ok (some s, some u))) := by
  refine ⟨fun st e => rfl, fun st => rfl, fun st s u => rfl, fun td now lf of => ?_⟩
  rcases process_ebay_data_cases td now lf of with h | ⟨e, he⟩ | ⟨o, l, hs⟩
  · exact Or.inl h
  · exact Or.inr (Or.inl ⟨e, he⟩)
  · exact Or.inr (Or.inr ⟨_, _, hs⟩)

/-- Claim C8: the Unsold output is the subsequence of qualifying listing
item identifiers in original file order — no sorting and no deduplication:
an identifier occurs exactly as many times as it has qualifying rows —
while the Sold output carries no duplicates and contains an identifier
exactly when some order row qualifies for it. -/
theorem unsold_sequence_sold_set (c : Int) (s : List String) (l : List ListingRec)
    (o : List OrderRec) (x : String) :
    (unsoldItems c s l).Sublist (l.map ListingRec.item)
    ∧ (unsoldItems c s l).count x
        = (l.filter (fun r => unsoldKeep c s r && (r.item == x))).length
    ∧ (soldItems c o).Nodup
    ∧ (x ∈ soldItems c o ↔ ∃ r ∈ o, optGT r.saleDate c = true ∧ r.item = x) := by
  refine ⟨List.Sublist.map _ (List.filter_sublist l), ?_, List.nodup_dedup _, ?_⟩
  · rw [List.count_eq_countP, unsoldItems, List.countP_map, List.countP_filter,
      List.countP_eq_length_filter]
    have hpred : ∀ r : ListingRec,
        (((fun y => y == x) ∘ ListingRec.item) r && unsoldKeep c s r)
          = (unsoldKeep c s r && (r.item == x)) := by
      intro r
      simp [Function.comp, Bool.and_comm]
    rw [List.filter_congr (fun r _ => hpred r)]
  · constructor
    · intro hx
      rcases List.mem_map.1 (List.mem_dedup.1 hx) with ⟨r, hr, hi⟩
      rcases List.mem_filter.1 hr with ⟨hrl, hgt⟩
      exact ⟨r, hrl, hgt, hi⟩
    · rintro ⟨r, hrl, hgt, hi⟩
      exact List.mem_dedup.2 (List.mem_map.2 ⟨r, List.mem_filter.2 ⟨hrl, hgt⟩, hi⟩)

/-- Claim C9: a listing row whose start date fails to parse carries
`startDate = none` (`NaT`); the comparison `NaT < cutoff` evaluates false,
so the loop condition rejects the row — it contributes nothing to the
Unsold output wherever it sits — and row normalization still succeeds, so
no error is raised for it. -/
theorem bad_start_date_excluded (td : String → Option Int) (c : Int)
    (s : List String) (i : String) (q : Option (Int × Nat))
    (pre post : List ListingRec) (r : Row)
    (hfmt : format_item_number (cell r "Item number") = Except.ok i)
    (hdate : (cell r "Start date").bind td = none) :
    unsoldKeep c s ⟨i, none, q⟩ = false
    ∧ unsoldItems c s (pre ++ ⟨i, none, q⟩ :: post) = unsoldItems c s (pre ++ post)
    ∧ listingRow td r
        = Except.ok ⟨i, none, (cell r "Available quantity").bind parseFloat⟩ := by
  have hk : unsoldKeep c s ⟨i, none, q⟩ = false := by
    simp [unsoldKeep, optLT]
  refine ⟨hk, unsoldItems_middle c s pre post _ hk, ?_⟩
  simp only [listingRow, hfmt, hdate]

/-- Witness for C9: the listing row with start date `"x"` normalizes to a
record with a missing start date, that record is rejected by the loop
condition, and dropping it does not change the Unsold output. -/
theorem bad_start_date_excluded_witness :
    unsoldKeep 816000 [] ⟨"7", none, some (1, 0)⟩ = false
    ∧ unsoldItems 816000 [] ([] ++ ⟨"7", none, some (1, 0)⟩ :: [])
        = unsoldItems 816000 [] ([] ++ [])
    ∧ listingRow tdNum badStartRow
        = Except.ok ⟨"7", none, (cell badStartRow "Available quantity").bind parseFloat⟩ :=
  bad_start_date_excluded tdNum 816000 [] "7" (some (1, 0)) [] [] badStartRow rfl rfl

theorem mapExcept_error_of_mem (f : α → Except String β) (l : List α) (a : α)
    (ha : a ∈ l) (e : String) (he : f a = Except.error e) :
    ∃ e2, mapExcept f l = Except.error e2 := by
  induction l with
  | nil => cases ha
  | cons b t ih =>
    rcases List.mem_cons.1 ha with hab | hat
    · subst hab
      exact ⟨e, by simp only [mapExcept, he]⟩
    · cases hfb : f b with
      | error e3 => exact ⟨e3, by simp only [mapExcept, hfb]⟩
      | ok bb =>
        rcases ih hat with ⟨e2, h2⟩
        exact ⟨e2, by simp only [mapExcept, hfb, h2]⟩

theorem format_item_number_error (s : String) (hs : ¬ s = "")
    (hp : parseFloat s = none) :
    format_item_number (some s)
      = Except.error ("could not convert string to float: " ++ s) := by
  have hstep : format_item_number (some s)
      = if s = "" then Except.ok ""
        else
          match parseFloat s with
          | some q => Except.ok (intStr (roundHalfEven q.1 q.2))
          | none => Except.error ("could not convert string to float: " ++ s) := rfl
  rw [hstep, if_neg hs, hp]

theorem orderRow_error (td : String → Option Int) (r : Row) (s : String)
    (hcell : cell r "Item number" = some s) (hs : ¬ s = "")
    (hp : parseFloat s = none) :
    orderRow td r = Except.error ("could not convert string to float: " ++ s) := by
  simp only [orderRow, hcell, format_item_number_error s hs hp]

theorem listingRow_error (td : String → Option Int) (r : Row) (s : String)
    (hcell : cell r "Item number" = some s) (hs : ¬ s = "")
    (hp : parseFloat s = none) :
    listingRow td r = Except.error ("could not convert string to float: " ++ s) := by
  simp only [listingRow, hcell, format_item_number_error s hs hp]

theorem normalizeOrders_error_of_bad_item (td : String → Option Int)
    (rows : List Row) (r : Row) (hr : r ∈ rows) (s : String)
    (hcell : cell r "Item number" = some s) (hs : ¬ s = "")
    (hp : parseFloat s = none) :
    ∃ e, normalizeOrders td rows = Except.error e := by
  rcases mapExcept_error_of_mem (orderRow td) rows r hr _
      (orderRow_error td r s hcell hs hp) with ⟨e2, h2⟩
  exact ⟨e2, by simp only [normalizeOrders, h2]⟩

/-- Claim C10: a non-empty `Item number` value that does not parse as a
number makes item normalization raise, and nothing in the processing step
catches it (the only handler wraps CSV reading): a run whose validating
order file holds such a value — or whose validating listing file does,
after the order file normalized cleanly — terminates abnormally with the
uncaught exception instead of the caught `(none, none)` report. -/
theorem bad_item_number_uncaught :
    (∀ (td : String → Option Int) (now : Int) (lf : Except String Frame)
      (f : Frame) (r : Row) (s : String),
      (["Item number", "Sale date"].filter
        (fun col => !(f.columns.contains col))).isEmpty = true →
      r ∈ f.rows → cell r "Item number" = some s → ¬ s = "" →
      parseFloat s = none →
      ∃ e, process_ebay_data td now lf (Except.ok f) = Except.error e)
    ∧ (∀ (td : String → Option Int) (now : Int) (fo fl : Frame)
      (orders : List OrderRec) (r : Row) (s : String),
      (["Item number", "Sale date"].filter
        (fun col => !(fo.columns.contains col))).isEmpty = true →
      normalizeOrders td fo.rows = Except.ok orders →
      (["Item number", "Start date", "Available quantity"].filter
        (fun col => !(fl.columns.contains col))).isEmpty = true →
      r ∈ fl.rows → cell r "Item number" = some s → ¬ s = "" →
      parseFloat s = none →
      ∃ e, process_ebay_data td now (Except.ok fl) (Except.ok fo) = Except.error e) := by
  constructor
  · intro td now lf f r s hval hr hcell hs hp
    have hread : (read_csv_filtered (Except.ok f) ["Item number", "Sale date"]).1
        = some f := by
      simp at hval
      simp [read_csv_filtered, hval]
    rcases normalizeOrders_error_of_bad_item td f.rows r hr s hcell hs hp with ⟨e, he⟩
    refine ⟨e, ?_⟩
    unfold process_ebay_data
    simp [hread, he]
  · intro td now fo fl orders r s hval1 hno hval2 hr hcell hs hp
    have hread1 : (read_csv_filtered (Except.ok fo) ["Item number", "Sale date"]).1
        = some fo := by
      simp at hval1
      simp [read_csv_filtered, hval1]
    have hread2 : (read_csv_filtered (Except.ok fl)
        ["Item number", "Start date", "Available quantity"]).1 = some fl := by
      simp at hval2
      simp [read_csv_filtered, hval2]
    rcases mapExcept_error_of_mem (listingRow td) fl.rows r hr _
        (listingRow_error td r s hcell hs hp) with ⟨e2, h2⟩
    refine ⟨e2, ?_⟩
    unfold process_ebay_data
    simp [hread1, hread2, hno, normalizeListings, h2]

/-- Witness for C10: an order file whose single row has the non-numeric
item number `"abc"` makes the whole run end in an uncaught error. -/
theorem bad_item_number_uncaught_witness :
    ∃ e, process_ebay_data tdNum 6000000 (Except.ok disjListingFrame)
      (Except.ok (⟨["Item number", "Sale date"], [badItemRow]⟩ : Frame))
      = Except.error e :=
  bad_item_number_uncaught.1 tdNum 6000000 (Except.ok disjListingFrame)
    ⟨["Item number", "Sale date"], [badItemRow]⟩ badItemRow "abc"
    (by decide) (by simp [badItemRow]) rfl (by decide) rfl

end EbayChecker
